import Mathlib

/-!
Verification of the entity relationship query engine (`entity/models.py`).

The Django model layer is shallowly embedded: tables are Lean lists, a
queryset is the list of candidate rows together with the database it reads
from and its prefetch lookups, and every filter method of `EntityQuerySet`
(and the two managers) becomes an executable Lean function translated
line-by-line from the source.  Primary keys and foreign keys are `Nat`.
-/

/-- Embeds `EntityKind` (models.py): a named, activatable kind.  `id` is the
implicit Django primary key. -/
structure EntityKind where
  id : Nat
  name : String
  display_name : String
  is_active : Bool
deriving DecidableEq, Repr

/-- Embeds `Entity` (models.py): the wrapper of a domain object.  `id` is the
implicit Django primary key; `entity_type`/`entity_id` are the generic
reference pair; `entity_kind` is the foreign key to `EntityKind`;
`entity_meta` stands for the JSON metadata field. -/
structure Entity where
  id : Nat
  display_name : String
  entity_id : Nat
  entity_type : Nat
  entity_kind : Nat
  entity_meta : Option String
  is_active : Bool
deriving DecidableEq, Repr

/-- Embeds `EntityRelationship` (models.py): a directed edge whose
`sub_entity`/`super_entity` fields are foreign keys to `Entity`. -/
structure EntityRelationship where
  sub_entity : Nat
  super_entity : Nat
deriving DecidableEq, Repr

/-- The relational store: the `Entity` table and the `EntityRelationship`
table (the claims do not touch the `EntityKind` table itself, only kind
foreign keys carried by entities). -/
structure DB where
  entities : List Entity
  relationships : List EntityRelationship
deriving DecidableEq, Repr

/-- Embeds a Django queryset over `Entity`: the database it reads from, the
current candidate rows, and the prefetch lookups registered so far by
`prefetch_related`. -/
structure EntityQuerySet where
  db : DB
  entities : List Entity
  prefetches : List String
deriving DecidableEq, Repr

/-- Embeds Django's `queryset.filter(...)`: narrow the candidate rows by a
predicate, keeping the database and prefetch lookups. -/
def EntityQuerySet.filter (qs : EntityQuerySet) (p : Entity → Bool) : EntityQuerySet :=
  ⟨qs.db, qs.entities.filter p, qs.prefetches⟩

/-- Embeds `EntityQuerySet.active` (models.py line 53): `filter(is_active=True)`. -/
def EntityQuerySet.active (qs : EntityQuerySet) : EntityQuerySet :=
  qs.filter (fun e => e.is_active)

/-- Embeds `EntityQuerySet.inactive` (models.py line 59): `filter(is_active=False)`. -/
def EntityQuerySet.inactive (qs : EntityQuerySet) : EntityQuerySet :=
  qs.filter (fun e => !e.is_active)

/-- Embeds `EntityQuerySet.is_any_kind` (models.py line 65):
`self.filter(entity_kind__in=entity_kinds) if entity_kinds else self`. -/
def EntityQuerySet.is_any_kind (qs : EntityQuerySet) (entity_kinds : List EntityKind) :
    EntityQuerySet :=
  match entity_kinds with
  | [] => qs
  | _ => qs.filter (fun e => (entity_kinds.map (fun k => k.id)).contains e.entity_kind)

/-- Embeds `EntityQuerySet.is_not_any_kind` (models.py line 71):
`self.exclude(entity_kind__in=entity_kinds) if entity_kinds else self`. -/
def EntityQuerySet.is_not_any_kind (qs : EntityQuerySet) (entity_kinds : List EntityKind) :
    EntityQuerySet :=
  match entity_kinds with
  | [] => qs
  | _ => qs.filter (fun e => !((entity_kinds.map (fun k => k.id)).contains e.entity_kind))

/-- Embeds the single-super fast path of `is_sub_to_all` (models.py lines 84-85):
`EntityRelationship.objects.filter(super_entity=super_entities[0])
.values_list('sub_entity', flat=True)`. -/
def subToAllFast (db : DB) (s0 : Entity) : List Nat :=
  (db.relationships.filter (fun r => r.super_entity == s0.id)).map (fun r => r.sub_entity)

/-- Embeds the general path of `is_sub_to_all` (models.py lines 88-90):
`EntityRelationship.objects.filter(super_entity__in=super_entities)
.values('sub_entity').annotate(Count('super_entity'))
.filter(super_entity__count=len(set(super_entities)))
.values_list('sub_entity', flat=True)`.
The `annotate(Count('super_entity'))` counts matching edge ROWS per
`sub_entity` group (no `distinct=True` in the source), and
`len(set(super_entities))` deduplicates the argument list by primary key. -/
def subToAllGeneral (db : DB) (super_entities : List Entity) : List Nat :=
  let superIds := super_entities.map (fun s => s.id)
  let matching := db.relationships.filter (fun r => superIds.contains r.super_entity)
  ((matching.map (fun r => r.sub_entity)).dedup).filter
    (fun s => (matching.filter (fun r => r.sub_entity == s)).length == superIds.dedup.length)

/-- Embeds `EntityQuerySet.is_sub_to_all` (models.py lines 77-94): dispatch on
`len(super_entities)` to the fast or general path, then `self.filter(id__in=has_subset)`;
empty argument returns `self`. -/
def EntityQuerySet.is_sub_to_all (qs : EntityQuerySet) (super_entities : List Entity) :
    EntityQuerySet :=
  match super_entities with
  | [] => qs
  | [s0] => qs.filter (fun e => (subToAllFast qs.db s0).contains e.id)
  | _ => qs.filter (fun e => (subToAllGeneral qs.db super_entities).contains e.id)

/-- Embeds the subquery of `is_sub_to_any` (models.py lines 101-102):
`EntityRelationship.objects.filter(super_entity__in=super_entities)
.values_list('sub_entity', flat=True)`. -/
def subToAnyPks (db : DB) (super_entities : List Entity) : List Nat :=
  (db.relationships.filter
    (fun r => (super_entities.map (fun s => s.id)).contains r.super_entity)).map
    (fun r => r.sub_entity)

/-- Embeds `EntityQuerySet.is_sub_to_any` (models.py lines 96-104). -/
def EntityQuerySet.is_sub_to_any (qs : EntityQuerySet) (super_entities : List Entity) :
    EntityQuerySet :=
  match super_entities with
  | [] => qs
  | _ => qs.filter (fun e => (subToAnyPks qs.db super_entities).contains e.id)

/-- Resolves an `Entity` foreign key: the row of the `Entity` table with the
given primary key. -/
def entityById (db : DB) (pk : Nat) : Option Entity :=
  db.entities.find? (fun e => e.id == pk)

/-- Embeds the join condition `super_entity__entity_kind=kid`: the edge's
super entity resolves to a row whose `entity_kind` foreign key is `kid`. -/
def superKindIs (db : DB) (kid : Nat) (r : EntityRelationship) : Bool :=
  match entityById db r.super_entity with
  | some se => se.entity_kind == kid
  | none => false

/-- Embeds the join condition `super_entity__entity_kind__in=kindIds`. -/
def superKindMatches (db : DB) (kindIds : List Nat) (r : EntityRelationship) : Bool :=
  match entityById db r.super_entity with
  | some se => kindIds.contains se.entity_kind
  | none => false

/-- Embeds the single-kind fast path of `is_sub_to_all_kinds` (models.py lines
113-114): `EntityRelationship.objects.filter(super_entity__entity_kind=super_entity_kinds[0])
.values_list('sub_entity', flat=True)`. -/
def subToAllKindsFast (db : DB) (k0 : EntityKind) : List Nat :=
  (db.relationships.filter (superKindIs db k0.id)).map (fun r => r.sub_entity)

/-- Embeds the general path of `is_sub_to_all_kinds` (models.py lines 117-120):
filter edges by `super_entity__entity_kind__in`, group by `sub_entity`,
`annotate(Count('super_entity'))` (edge-ROW count, no `distinct=True`), keep
groups whose count equals `len(set(super_entity_kinds))`. -/
def subToAllKindsGeneral (db : DB) (super_entity_kinds : List EntityKind) : List Nat :=
  let kindIds := super_entity_kinds.map (fun k => k.id)
  let matching := db.relationships.filter (superKindMatches db kindIds)
  ((matching.map (fun r => r.sub_entity)).dedup).filter
    (fun s => (matching.filter (fun r => r.sub_entity == s)).length == kindIds.dedup.length)

/-- Embeds `EntityQuerySet.is_sub_to_all_kinds` (models.py lines 106-124):
dispatch on `len(super_entity_kinds)`, then `self.filter(pk__in=has_subset)`;
empty argument returns `self`. -/
def EntityQuerySet.is_sub_to_all_kinds (qs : EntityQuerySet)
    (super_entity_kinds : List EntityKind) : EntityQuerySet :=
  match super_entity_kinds with
  | [] => qs
  | [k0] => qs.filter (fun e => (subToAllKindsFast qs.db k0).contains e.id)
  | _ => qs.filter (fun e => (subToAllKindsGeneral qs.db super_entity_kinds).contains e.id)

/-- Embeds the single-kind branch of `is_sub_to_any_kind` (models.py lines
133-135). -/
def subToAnyKindPks1 (db : DB) (k0 : EntityKind) : List Nat :=
  (db.relationships.filter (superKindIs db k0.id)).map (fun r => r.sub_entity)

/-- Embeds the multi-kind branch of `is_sub_to_any_kind` (models.py lines
137-139). -/
def subToAnyKindPksN (db : DB) (super_entity_kinds : List EntityKind) : List Nat :=
  (db.relationships.filter
    (superKindMatches db (super_entity_kinds.map (fun k => k.id)))).map
    (fun r => r.sub_entity)

/-- Embeds `EntityQuerySet.is_sub_to_any_kind` (models.py lines 126-143):
branch on `len(super_entity_kinds)`, then `self.filter(pk__in=entity_pks)`;
empty argument returns `self`. -/
def EntityQuerySet.is_sub_to_any_kind (qs : EntityQuerySet)
    (super_entity_kinds : List EntityKind) : EntityQuerySet :=
  match super_entity_kinds with
  | [] => qs
  | [k0] => qs.filter (fun e => (subToAnyKindPks1 qs.db k0).contains e.id)
  | _ => qs.filter (fun e => (subToAnyKindPksN qs.db super_entity_kinds).contains e.id)

/-- Embeds `itertools.compress` as used in `cache_relationships`. -/
def compress (data : List String) (selectors : List Bool) : List String :=
  (data.zip selectors).filterMap (fun p => if p.2 then some p.1 else none)

/-- Embeds `EntityQuerySet.cache_relationships` (models.py lines 145-151):
select the lookups with `compress` and register them via `prefetch_related`
(modelled as appending to the queryset's prefetch list; Django's
`prefetch_related` does not change which rows a queryset yields). -/
def EntityQuerySet.cache_relationships (qs : EntityQuerySet)
    (cache_super : Bool := true) (cache_sub : Bool := true) : EntityQuerySet :=
  let relationships_to_cache :=
    compress ["super_relationships__super_entity", "sub_relationships__sub_entity"]
      [cache_super, cache_sub]
  ⟨qs.db, qs.entities, qs.prefetches ++ relationships_to_cache⟩

/-- Embeds `AllEntityManager.get_queryset` (models.py lines 158-159):
`EntityQuerySet(self.model)`, i.e. all rows of the `Entity` table. -/
def AllEntityManager.get_queryset (db : DB) : EntityQuerySet :=
  ⟨db, db.entities, []⟩

/-- Embeds `ActiveEntityManager.get_queryset` (models.py lines 238-239):
`EntityQuerySet(self.model).active()`. -/
def ActiveEntityManager.get_queryset (db : DB) : EntityQuerySet :=
  (EntityQuerySet.mk db db.entities []).active

/-- Outcomes of Django's `Manager.get`: `DoesNotExist` when zero rows match,
`MultipleObjectsReturned` when more than one row matches. -/
inductive GetError where
  | doesNotExist
  | multipleObjectsReturned
deriving DecidableEq, Repr

/-- Embeds Django's `Manager.get(**filters)` over an already-scoped row list:
exactly one matching row is returned, zero raises `DoesNotExist`, two or more
raise `MultipleObjectsReturned`. -/
def managerGet (rows : List Entity) (p : Entity → Bool) : Except GetError Entity :=
  match rows.filter p with
  | [] => Except.error GetError.doesNotExist
  | [e] => Except.ok e
  | _ => Except.error GetError.multipleObjectsReturned

/-- Embeds `AllEntityManager.get_for_obj` (models.py lines 161-166):
`self.get(entity_type=..., entity_id=obj.id)`.  `self.get` dispatches through
the manager's `get_queryset`, passed here as `gq` (so the inherited method on
`ActiveEntityManager` is `get_for_obj ActiveEntityManager.get_queryset`). -/
def AllEntityManager.get_for_obj (gq : DB → EntityQuerySet) (db : DB)
    (obj_type obj_id : Nat) : Except GetError Entity :=
  managerGet (gq db).entities (fun e => e.entity_type == obj_type && e.entity_id == obj_id)

/-- Embeds `AllEntityManager.delete_for_obj` (models.py lines 168-175):
`self.filter(entity_type=..., entity_id=obj.id).delete(force=True)`.
`self.filter` dispatches through the manager's `get_queryset` (`gq`).
Modelled from the spec: `delete(force=True)` of the external activatable
overlay is a physical deletion bypassing soft delete, and deleting an entity
cascades to its incident relationship rows (foreign keys on the edge table). -/
def AllEntityManager.delete_for_obj (gq : DB → EntityQuerySet) (db : DB)
    (obj_type obj_id : Nat) : DB :=
  let targets := (gq db).entities.filter
    (fun e => e.entity_type == obj_type && e.entity_id == obj_id)
  let targetIds := targets.map (fun e => e.id)
  ⟨db.entities.filter (fun e => !(targetIds.contains e.id)),
   db.relationships.filter
     (fun r => !(targetIds.contains r.sub_entity) && !(targetIds.contains r.super_entity))⟩

/-- Modelled from the spec: the standard (non-forced) deletion path of the
external activatable overlay (`BaseActivatableModel`, not part of this
repository) deactivates a row, setting `is_active` to false, instead of
removing it. -/
def deactivate (db : DB) (pk : Nat) : DB :=
  ⟨db.entities.map (fun e => if e.id == pk then { e with is_active := false } else e),
   db.relationships⟩

/-- A database transformation used to state activation-independence: set the
`is_active` flag of the entity with primary key `pk` to `b`. -/
def setActiveFlag (db : DB) (pk : Nat) (b : Bool) : DB :=
  ⟨db.entities.map (fun e => if e.id == pk then { e with is_active := b } else e),
   db.relationships⟩

/-- Embeds `Entity.get_super_entities` (models.py lines 279-284):
`[r.super_entity for r in self.super_relationships.all()]`, where
`super_relationships` are the edges whose `sub_entity` is `self`. -/
def Entity.get_super_entities (db : DB) (e : Entity) : List Entity :=
  (db.relationships.filter (fun r => r.sub_entity == e.id)).filterMap
    (fun r => entityById db r.super_entity)

/-- Embeds `Entity.get_sub_entities` (models.py lines 272-277):
`[r.sub_entity for r in self.sub_relationships.all()]`, where
`sub_relationships` are the edges whose `super_entity` is `self`. -/
def Entity.get_sub_entities (db : DB) (e : Entity) : List Entity :=
  (db.relationships.filter (fun r => r.super_entity == e.id)).filterMap
    (fun r => entityById db r.sub_entity)

/-- Embeds the `unique_together = ('entity_id', 'entity_type', 'entity_kind')`
constraint of `Entity.Meta` (models.py lines 269-270). -/
def uniqueTogether (db : DB) : Prop :=
  ∀ e1 ∈ db.entities, ∀ e2 ∈ db.entities,
    e1.entity_id = e2.entity_id → e1.entity_type = e2.entity_type →
    e1.entity_kind = e2.entity_kind → e1 = e2

instance (db : DB) : Decidable (uniqueTogether db) := by
  unfold uniqueTogether
  infer_instance

/-! ### Helper lemmas -/

theorem EntityQuerySet.filter_db (qs : EntityQuerySet) (p : Entity → Bool) :
    (qs.filter p).db = qs.db := rfl

theorem EntityQuerySet.filter_comm (qs : EntityQuerySet) (p q : Entity → Bool) :
    (qs.filter p).filter q = (qs.filter q).filter p := by
  simp only [EntityQuerySet.filter, EntityQuerySet.mk.injEq, true_and, and_true]
  rw [List.filter_filter, List.filter_filter]
  exact List.filter_congr (fun a _ => Bool.and_comm _ _)

theorem EntityQuerySet.filter_entities_subset (qs : EntityQuerySet) (p : Entity → Bool) :
    ∀ e ∈ (qs.filter p).entities, e ∈ qs.entities := by
  intro e he
  exact (List.mem_filter.mp he).1

/-! ### C4: empty filter arguments are no-ops -/

/-- C4: for every entity set, calling `is_any_kind`, `is_not_any_kind`,
`is_sub_to_any`, `is_sub_to_all`, `is_sub_to_any_kind` or `is_sub_to_all_kinds`
with an empty argument list returns the set unchanged; the operations are
total functions, so no empty-argument call raises an invalid-argument error. -/
theorem c4_empty_filter_noop (qs : EntityQuerySet) :
    qs.is_any_kind [] = qs ∧ qs.is_not_any_kind [] = qs ∧
    qs.is_sub_to_any [] = qs ∧ qs.is_sub_to_all [] = qs ∧
    qs.is_sub_to_any_kind [] = qs ∧ qs.is_sub_to_all_kinds [] = qs :=
  ⟨rfl, rfl, rfl, rfl, rfl, rfl⟩

/-! ### C7: cache_relationships does not change results -/

/-- C7: `cache_relationships` never changes which entities a queryset
materializes nor the super/sub neighborhoods later read through
`get_super_entities`/`get_sub_entities` (which consult the same database),
and selecting neither flag leaves the queryset entirely unchanged. -/
theorem c7_cache_transparency (qs : EntityQuerySet) (cache_super cache_sub : Bool) :
    (qs.cache_relationships cache_super cache_sub).entities = qs.entities ∧
    (∀ e : Entity,
      Entity.get_super_entities (qs.cache_relationships cache_super cache_sub).db e =
        Entity.get_super_entities qs.db e) ∧
    (∀ e : Entity,
      Entity.get_sub_entities (qs.cache_relationships cache_super cache_sub).db e =
        Entity.get_sub_entities qs.db e) ∧
    qs.cache_relationships false false = qs := by
  refine ⟨rfl, fun e => rfl, fun e => rfl, ?_⟩
  cases qs with
  | mk db entities prefetches =>
    simp [EntityQuerySet.cache_relationships, compress]

/-! ### C8: kind filters and coverage filters commute and shrink -/

/-- C8: `is_any_kind` followed by `is_sub_to_all` gives the same queryset as
the reverse order, and each of the two filters returns a subset of the
candidate entities it was given. -/
theorem c8_commute_and_shrink (qs : EntityQuerySet) (entity_kinds : List EntityKind)
    (super_entities : List Entity) :
    (qs.is_any_kind entity_kinds).is_sub_to_all super_entities =
      (qs.is_sub_to_all super_entities).is_any_kind entity_kinds ∧
    (∀ e ∈ (qs.is_any_kind entity_kinds).entities, e ∈ qs.entities) ∧
    (∀ e ∈ (qs.is_sub_to_all super_entities).entities, e ∈ qs.entities) := by
  refine ⟨?_, ?_, ?_⟩
  · match entity_kinds, super_entities with
    | [], _ =>
      cases super_entities with
      | nil => rfl
      | cons s rest => cases rest <;> rfl
    | k :: ks, [] => rfl
    | k :: ks, [s0] =>
      exact EntityQuerySet.filter_comm qs _ _
    | k :: ks, s0 :: s1 :: rest =>
      exact EntityQuerySet.filter_comm qs _ _
  · match entity_kinds with
    | [] => exact fun e he => he
    | k :: ks => exact EntityQuerySet.filter_entities_subset qs _
  · match super_entities with
    | [] => exact fun e he => he
    | [s0] => exact EntityQuerySet.filter_entities_subset qs _
    | s0 :: s1 :: rest => exact EntityQuerySet.filter_entities_subset qs _

/-! ### Concrete stores exhibiting the duplicate-edge behavior (C1-C3) -/

/-- Sub entity X (pk 1) of the duplicate-edge stores. -/
def exX : Entity := ⟨1, "X", 101, 9, 1, none, true⟩

/-- Super entity Y (pk 2). -/
def exY : Entity := ⟨2, "Y", 102, 9, 1, none, true⟩

/-- Super entity Z (pk 3). -/
def exZ : Entity := ⟨3, "Z", 103, 9, 1, none, true⟩

/-- Store where X has two duplicate edges to Y and no edge to Z. -/
def exDB1 : DB := ⟨[exX, exY, exZ], [⟨1, 2⟩, ⟨1, 2⟩]⟩

/-- Candidate set `S = [X]` over `exDB1`. -/
def exQS1 : EntityQuerySet := ⟨exDB1, [exX], []⟩

/-- Store where X has two duplicate edges to Y and one edge to Z. -/
def exDB1b : DB := ⟨[exX, exY, exZ], [⟨1, 2⟩, ⟨1, 2⟩, ⟨1, 3⟩]⟩

/-- Candidate set `S = [X]` over `exDB1b`. -/
def exQS1b : EntityQuerySet := ⟨exDB1b, [exX], []⟩

/-- C1: the claim fails on the code.  `is_sub_to_all` counts raw edge rows
(`Count('super_entity')` without `distinct=True`), so over `exDB1` the two
duplicate X-to-Y edge rows are counted as 2 = `len(set([Y, Z]))` and X is
KEPT even though its distinct super entities within `[Y, Z]` are just `[Y]`;
over `exDB1b` X covers both Y and Z with distinct supers yet is DROPPED
because its three matching edge rows give count 3 which is not 2. -/
theorem c1_row_counting_not_distinct :
    (exQS1.is_sub_to_all [exY, exZ]).entities = [exX] ∧
    ((exDB1.relationships.filter (fun r => r.sub_entity == exX.id)).map
      (fun r => r.super_entity)).dedup = [exY.id] ∧
    (exQS1b.is_sub_to_all [exY, exZ]).entities = [] ∧
    ((exDB1b.relationships.filter (fun r => r.sub_entity == exX.id)).map
      (fun r => r.super_entity)).dedup = [exY.id, exZ.id] := by
  decide

/-- Requested kind K1 (pk 1). -/
def exK1 : EntityKind := ⟨1, "k1", "", true⟩

/-- Requested kind K2 (pk 2). -/
def exK2 : EntityKind := ⟨2, "k2", "", true⟩

/-- Sub entity X2 (pk 1) of the kind-coverage stores. -/
def exX2 : Entity := ⟨1, "X2", 201, 9, 1, none, true⟩

/-- Super entity A (pk 2), of kind K1. -/
def exA : Entity := ⟨2, "A", 202, 9, 1, none, true⟩

/-- Super entity B (pk 3), also of kind K1, distinct from A. -/
def exB : Entity := ⟨3, "B", 203, 9, 1, none, true⟩

/-- Super entity C (pk 4), of kind K2. -/
def exC : Entity := ⟨4, "C", 204, 9, 2, none, true⟩

/-- Store where X2 is sub to A and B (two distinct supers of kind K1) and to
C (kind K2): the kinds of its supers cover `{K1, K2}`. -/
def exDB2 : DB := ⟨[exX2, exA, exB, exC], [⟨1, 2⟩, ⟨1, 3⟩, ⟨1, 4⟩]⟩

/-- Candidate set `S = [X2]` over `exDB2`. -/
def exQS2 : EntityQuerySet := ⟨exDB2, [exX2], []⟩

/-- Store where X2 has two duplicate edges to A (kind K1) only. -/
def exDB2b : DB := ⟨[exX2, exA], [⟨1, 2⟩, ⟨1, 2⟩]⟩

/-- Candidate set `S = [X2]` over `exDB2b`. -/
def exQS2b : EntityQuerySet := ⟨exDB2b, [exX2], []⟩

/-- C2: the claim fails on the code.  Over `exDB2` the set of kinds among
X2's super entities is exactly `[K1, K2]`, covering every requested kind, and
X2 even has two distinct supers of kind K1 plus one of kind K2 — the claim's
own example — yet `is_sub_to_all_kinds [K1, K2]` DROPS X2 because it counts
3 matching edge rows, not 2 covered kinds.  Conversely over `exDB2b` the two
duplicate rows to A make the count 2 and X2 is KEPT although the kinds of its
supers are just `[K1]`. -/
theorem c2_kind_coverage_counts_rows :
    (exQS2.is_sub_to_all_kinds [exK1, exK2]).entities = [] ∧
    ((Entity.get_super_entities exDB2 exX2).map (fun e => e.entity_kind)).dedup =
      [exK1.id, exK2.id] ∧
    (exQS2b.is_sub_to_all_kinds [exK1, exK2]).entities = [exX2] ∧
    ((Entity.get_super_entities exDB2b exX2).map (fun e => e.entity_kind)).dedup =
      [exK1.id] := by
  decide

/-- Store for C3: X with two duplicate edges to Y. -/
def exDB3 : DB := ⟨[exX, exY], [⟨1, 2⟩, ⟨1, 2⟩]⟩

/-- Candidate set `S = [X]` over `exDB3`. -/
def exQS3 : EntityQuerySet := ⟨exDB3, [exX], []⟩

/-- Store for C3's kind half: X2 with two duplicate edges to A (kind K1). -/
def exDB3k : DB := ⟨[exX2, exA], [⟨1, 2⟩, ⟨1, 2⟩]⟩

/-- Candidate set `S = [X2]` over `exDB3k`. -/
def exQS3k : EntityQuerySet := ⟨exDB3k, [exX2], []⟩

/-- C3: the claim fails on the code.  Under duplicate edges the single-element
fast path and the general counting algorithm disagree: the fast path of
`is_sub_to_all [Y]` keeps X, while the general algorithm `subToAllGeneral`
applied to the one-element list `[Y]` drops it (the two duplicate rows count
as 2, not `len(set([Y])) = 1`); likewise for the single-kind fast path of
`is_sub_to_all_kinds` versus `subToAllKindsGeneral`. -/
theorem c3_fast_path_diverges_from_general :
    (exQS3.is_sub_to_all [exY]).entities = [exX] ∧
    (exQS3.filter (fun e => (subToAllGeneral exQS3.db [exY]).contains e.id)).entities = [] ∧
    (exQS3k.is_sub_to_all_kinds [exK1]).entities = [exX2] ∧
    (exQS3k.filter
      (fun e => (subToAllKindsGeneral exQS3k.db [exK1]).contains e.id)).entities = [] := by
  decide

/-! ### C5: activation scoping of the two managers -/

/-- C5: after deactivating an entity through the standard path, no entity
with its primary key appears through the active-scoped default manager, while
the entity itself — now carrying `is_active = false` — appears through the
"all" manager; and the default manager's queryset is exactly the "all"
manager's queryset narrowed by `.active` (both entry points being
`EntityQuerySet`s, they expose the identical operations). -/
theorem c5_active_scoping (db : DB) (e : Entity) (he : e ∈ db.entities) :
    (∀ x ∈ (ActiveEntityManager.get_queryset (deactivate db e.id)).entities, x.id ≠ e.id) ∧
    ({ e with is_active := false } ∈
      (AllEntityManager.get_queryset (deactivate db e.id)).entities) ∧
    ({ e with is_active := false } : Entity).is_active = false ∧
    ActiveEntityManager.get_queryset (deactivate db e.id) =
      (AllEntityManager.get_queryset (deactivate db e.id)).active := by
  refine ⟨?_, ?_, rfl, rfl⟩
  · intro x hx hxid
    have hx' : x ∈ (deactivate db e.id).entities ∧ x.is_active = true :=
      List.mem_filter.mp hx
    obtain ⟨orig, horig, hfx⟩ := List.mem_map.mp hx'.1
    by_cases h : orig.id = e.id
    · rw [← hfx] at hx'
      simp [h] at hx'
    · apply h
      rw [← hxid, ← hfx]
      simp [h]
  · apply List.mem_map.mpr
    exact ⟨e, he, by simp⟩

/-- The store of the C5 witness: a single active entity. -/
def exE5 : Entity := ⟨1, "", 301, 9, 1, none, true⟩

/-- Single-entity store for the C5 witness. -/
def exDB5 : DB := ⟨[exE5], []⟩

/-- Witness for C5 at the concrete store `exDB5`. -/
theorem c5_active_scoping_witness :
    exE5 ∈ exDB5.entities ∧
    ((∀ x ∈ (ActiveEntityManager.get_queryset (deactivate exDB5 exE5.id)).entities,
        x.id ≠ exE5.id) ∧
      ({ exE5 with is_active := false } ∈
        (AllEntityManager.get_queryset (deactivate exDB5 exE5.id)).entities) ∧
      ({ exE5 with is_active := false } : Entity).is_active = false ∧
      ActiveEntityManager.get_queryset (deactivate exDB5 exE5.id) =
        (AllEntityManager.get_queryset (deactivate exDB5 exE5.id)).active) :=
  ⟨by decide, c5_active_scoping exDB5 exE5 (by decide)⟩

/-! ### C6: get_for_obj, NotFound and the uniqueness invariant -/

/-- Store refuting C6 as stated: the same domain reference (type 5, id 7)
wrapped under two different kinds — allowed by `unique_together` — gives
`get_for_obj` two matching rows. -/
def exDB6 : DB := ⟨[⟨1, "", 7, 5, 1, none, true⟩, ⟨2, "", 7, 5, 2, none, true⟩], []⟩

/-- C6 counterexample: `exDB6` satisfies the `unique_together` invariant and
has duplicate-free rows, yet `get_for_obj` on reference (type 5, id 7)
matches two rows and raises `MultipleObjectsReturned` — the invariant alone
does not bound the match to one row. -/
theorem c6_counterexample :
    uniqueTogether exDB6 ∧ exDB6.entities.Nodup ∧
    ((AllEntityManager.get_queryset exDB6).entities.filter
      (fun e => e.entity_type == 5 && e.entity_id == 7)).length = 2 ∧
    AllEntityManager.get_for_obj AllEntityManager.get_queryset exDB6 5 7 =
      Except.error GetError.multipleObjectsReturned :=
  ⟨by decide, by decide, by decide, rfl⟩

theorem managerGet_no_multiple (rows : List Entity) (p : Entity → Bool)
    (hnd : rows.Nodup) (hall : ∀ a ∈ rows.filter p, ∀ c ∈ rows.filter p, a = c) :
    managerGet rows p ≠ Except.error GetError.multipleObjectsReturned := by
  unfold managerGet
  cases hm : rows.filter p with
  | nil => simp
  | cons a tl =>
    cases tl with
    | nil => simp
    | cons c rest =>
      intro _
      have hmemA : a ∈ rows.filter p := by
        rw [hm]; exact List.mem_cons_self _ _
      have hmemC : c ∈ rows.filter p := by
        rw [hm]; exact List.mem_cons_of_mem _ (List.mem_cons_self _ _)
      have hac : a = c := hall a hmemA c hmemC
      have hndf : (rows.filter p).Nodup := hnd.filter p
      rw [hm] at hndf
      exact (List.nodup_cons.mp hndf).1 (hac ▸ List.mem_cons_self c rest)

/-- C6 amended: `get_for_obj` fails with `DoesNotExist` whenever zero entities
in the manager's scope wrap the reference (it never silently returns a
default), and — given the `unique_together` invariant, duplicate-free rows,
and the additional premise that all wrappers of the reference share one kind —
it never matches more than one row.  The uniqueness invariant alone permits
one matching row per kind (see the counterexample), so the shared-kind premise
is exactly what the original claim was missing. -/
theorem c6_get_for_obj_amended (gq : DB → EntityQuerySet) (db : DB) (t i : Nat)
    (hsub : ∀ x ∈ (gq db).entities, x ∈ db.entities)
    (hnd : (gq db).entities.Nodup)
    (huniq : uniqueTogether db)
    (hkind : ∀ e1 ∈ db.entities, ∀ e2 ∈ db.entities,
      e1.entity_type = t → e1.entity_id = i → e2.entity_type = t → e2.entity_id = i →
      e1.entity_kind = e2.entity_kind) :
    ((gq db).entities.filter (fun e => e.entity_type == t && e.entity_id == i) = [] →
      AllEntityManager.get_for_obj gq db t i = Except.error GetError.doesNotExist) ∧
    AllEntityManager.get_for_obj gq db t i ≠
      Except.error GetError.multipleObjectsReturned := by
  constructor
  · intro h
    unfold AllEntityManager.get_for_obj managerGet
    rw [h]
  · apply managerGet_no_multiple _ _ hnd
    intro a ha c hc
    have ha' := List.mem_filter.mp ha
    have hc' := List.mem_filter.mp hc
    have hat : a.entity_type = t ∧ a.entity_id = i := by
      have := ha'.2
      simp only [Bool.and_eq_true, beq_iff_eq] at this
      exact this
    have hct : c.entity_type = t ∧ c.entity_id = i := by
      have := hc'.2
      simp only [Bool.and_eq_true, beq_iff_eq] at this
      exact this
    have hadb : a ∈ db.entities := hsub a ha'.1
    have hcdb : c ∈ db.entities := hsub c hc'.1
    have hk : a.entity_kind = c.entity_kind :=
      hkind a hadb c hcdb hat.1 hat.2 hct.1 hct.2
    exact huniq a hadb c hcdb (hat.2.trans hct.2.symm) (hat.1.trans hct.1.symm) hk

/-- Single-wrapper store for the C6 witness. -/
def exDB6w : DB := ⟨[⟨1, "", 7, 5, 1, none, true⟩], []⟩

/-- Witness for the amended C6 at `exDB6w` through the "all" manager. -/
theorem c6_get_for_obj_amended_witness :
    ((∀ x ∈ (AllEntityManager.get_queryset exDB6w).entities, x ∈ exDB6w.entities) ∧
      (AllEntityManager.get_queryset exDB6w).entities.Nodup ∧
      uniqueTogether exDB6w ∧
      (∀ e1 ∈ exDB6w.entities, ∀ e2 ∈ exDB6w.entities,
        e1.entity_type = 5 → e1.entity_id = 7 → e2.entity_type = 5 → e2.entity_id = 7 →
        e1.entity_kind = e2.entity_kind)) ∧
    (((AllEntityManager.get_queryset exDB6w).entities.filter
        (fun e => e.entity_type == 5 && e.entity_id == 7) = [] →
      AllEntityManager.get_for_obj AllEntityManager.get_queryset exDB6w 5 7 =
        Except.error GetError.doesNotExist) ∧
      AllEntityManager.get_for_obj AllEntityManager.get_queryset exDB6w 5 7 ≠
        Except.error GetError.multipleObjectsReturned) :=
  ⟨⟨by decide, by decide, by decide, by decide⟩,
    c6_get_for_obj_amended AllEntityManager.get_queryset exDB6w 5 7
      (by decide) (by decide) (by decide) (by decide)⟩

/-! ### C9: relationship filters ignore the super side's activation -/

theorem find?_entity_kind_setActive (l : List Entity) (pk x : Nat) (b : Bool) :
    ((l.map (fun e => if e.id == pk then { e with is_active := b } else e)).find?
        (fun e => e.id == x)).map (fun e => e.entity_kind) =
      (l.find? (fun e => e.id == x)).map (fun e => e.entity_kind) := by
  induction l with
  | nil => rfl
  | cons a t ih =>
    have hid : (if (a.id == pk) = true then { a with is_active := b } else a).id = a.id := by
      split <;> rfl
    have hkind :
        (if (a.id == pk) = true then { a with is_active := b } else a).entity_kind =
          a.entity_kind := by
      split <;> rfl
    rw [List.map_cons]
    cases hx : (a.id == x) with
    | true =>
      have hl : List.find? (fun e => e.id == x)
          ((if (a.id == pk) = true then { a with is_active := b } else a) ::
            t.map (fun e => if (e.id == pk) = true then { e with is_active := b } else e)) =
          some (if (a.id == pk) = true then { a with is_active := b } else a) :=
        List.find?_cons_of_pos _ (by rw [hid]; exact hx)
      have hr : List.find? (fun e => e.id == x) (a :: t) = some a :=
        List.find?_cons_of_pos _ hx
      rw [hl, hr]
      simp
      split <;> rfl
    | false =>
      have hl : List.find? (fun e => e.id == x)
          ((if (a.id == pk) = true then { a with is_active := b } else a) ::
            t.map (fun e => if (e.id == pk) = true then { e with is_active := b } else e)) =
          List.find? (fun e => e.id == x)
            (t.map (fun e => if (e.id == pk) = true then { e with is_active := b } else e)) :=
        List.find?_cons_of_neg _ (by rw [hid]; simp [hx])
      have hr : List.find? (fun e => e.id == x) (a :: t) = List.find? (fun e => e.id == x) t :=
        List.find?_cons_of_neg _ (by simp [hx])
      rw [hl, hr]
      exact ih

theorem entityById_kind_setActiveFlag (db : DB) (pk : Nat) (b : Bool) (x : Nat) :
    (entityById (setActiveFlag db pk b) x).map (fun e => e.entity_kind) =
      (entityById db x).map (fun e => e.entity_kind) := by
  cases db with
  | mk ents rels => exact find?_entity_kind_setActive ents pk x b

theorem superKindIs_setActiveFlag (db : DB) (pk : Nat) (b : Bool) (kid : Nat)
    (r : EntityRelationship) :
    superKindIs (setActiveFlag db pk b) kid r = superKindIs db kid r := by
  have h := entityById_kind_setActiveFlag db pk b r.super_entity
  unfold superKindIs
  cases h1 : entityById (setActiveFlag db pk b) r.super_entity <;>
    cases h2 : entityById db r.super_entity <;>
      rw [h1, h2] at h <;> simp_all

theorem superKindMatches_setActiveFlag (db : DB) (pk : Nat) (b : Bool)
    (kindIds : List Nat) (r : EntityRelationship) :
    superKindMatches (setActiveFlag db pk b) kindIds r = superKindMatches db kindIds r := by
  have h := entityById_kind_setActiveFlag db pk b r.super_entity
  unfold superKindMatches
  cases h1 : entityById (setActiveFlag db pk b) r.super_entity <;>
    cases h2 : entityById db r.super_entity <;>
      rw [h1, h2] at h <;> simp_all

theorem subToAnyKindPks1_setActiveFlag (db : DB) (pk : Nat) (b : Bool) (k0 : EntityKind) :
    subToAnyKindPks1 (setActiveFlag db pk b) k0 = subToAnyKindPks1 db k0 := by
  unfold subToAnyKindPks1
  show ((db.relationships.filter (superKindIs (setActiveFlag db pk b) k0.id)).map
    (fun r => r.sub_entity)) = _
  congr 1
  exact List.filter_congr (fun r _ => superKindIs_setActiveFlag db pk b k0.id r)

theorem subToAnyKindPksN_setActiveFlag (db : DB) (pk : Nat) (b : Bool)
    (ks : List EntityKind) :
    subToAnyKindPksN (setActiveFlag db pk b) ks = subToAnyKindPksN db ks := by
  unfold subToAnyKindPksN
  show ((db.relationships.filter
    (superKindMatches (setActiveFlag db pk b) (ks.map (fun k => k.id)))).map
    (fun r => r.sub_entity)) = _
  congr 1
  exact List.filter_congr (fun r _ => superKindMatches_setActiveFlag db pk b _ r)

theorem subToAllKindsFast_setActiveFlag (db : DB) (pk : Nat) (b : Bool) (k0 : EntityKind) :
    subToAllKindsFast (setActiveFlag db pk b) k0 = subToAllKindsFast db k0 := by
  unfold subToAllKindsFast
  show ((db.relationships.filter (superKindIs (setActiveFlag db pk b) k0.id)).map
    (fun r => r.sub_entity)) = _
  congr 1
  exact List.filter_congr (fun r _ => superKindIs_setActiveFlag db pk b k0.id r)

theorem subToAllKindsGeneral_setActiveFlag (db : DB) (pk : Nat) (b : Bool)
    (ks : List EntityKind) :
    subToAllKindsGeneral (setActiveFlag db pk b) ks = subToAllKindsGeneral db ks := by
  have hm : List.filter (superKindMatches (setActiveFlag db pk b) (ks.map (fun k => k.id)))
      (setActiveFlag db pk b).relationships =
      List.filter (superKindMatches db (ks.map (fun k => k.id))) db.relationships :=
    List.filter_congr (fun r _ => superKindMatches_setActiveFlag db pk b _ r)
  unfold subToAllKindsGeneral
  simp only [hm]

theorem subToAnyContainsAux (rels : List EntityRelationship) (yid sid : Nat) :
    (((rels.filter (fun r => ([yid] : List Nat).contains r.super_entity)).map
        (fun r => r.sub_entity)).contains sid) =
      rels.any (fun r => r.sub_entity == sid && r.super_entity == yid) := by
  rw [Bool.eq_iff_iff]
  simp only [List.contains, List.elem_iff, List.mem_map, List.mem_filter, List.any_eq_true,
    Bool.and_eq_true, beq_iff_eq, List.mem_singleton]
  constructor
  · rintro ⟨r, ⟨hr, hsup⟩, hsub⟩
    exact ⟨r, hr, hsub, hsup⟩
  · rintro ⟨r, hr, hsub, hsup⟩
    exact ⟨r, ⟨hr, hsup⟩, hsub⟩

/-- C9: the relationship filters never consult the activation state of the
super side of an edge.  Flipping any entity's `is_active` flag in the store
changes none of `is_sub_to_any`, `is_sub_to_all`, `is_sub_to_any_kind`,
`is_sub_to_all_kinds` over a fixed candidate set, and for an inactive super
entity `y` the filter `is_sub_to_any [y]` still returns exactly the
candidates that have an edge to `y`. -/
theorem c9_super_activation_ignored (db : DB) (S : List Entity) (pf : List String)
    (pk : Nat) (b : Bool) (supers : List Entity) (kinds : List EntityKind)
    (y : Entity) (hy : y.is_active = false) :
    (EntityQuerySet.is_sub_to_any ⟨setActiveFlag db pk b, S, pf⟩ supers).entities =
      (EntityQuerySet.is_sub_to_any ⟨db, S, pf⟩ supers).entities ∧
    (EntityQuerySet.is_sub_to_all ⟨setActiveFlag db pk b, S, pf⟩ supers).entities =
      (EntityQuerySet.is_sub_to_all ⟨db, S, pf⟩ supers).entities ∧
    (EntityQuerySet.is_sub_to_any_kind ⟨setActiveFlag db pk b, S, pf⟩ kinds).entities =
      (EntityQuerySet.is_sub_to_any_kind ⟨db, S, pf⟩ kinds).entities ∧
    (EntityQuerySet.is_sub_to_all_kinds ⟨setActiveFlag db pk b, S, pf⟩ kinds).entities =
      (EntityQuerySet.is_sub_to_all_kinds ⟨db, S, pf⟩ kinds).entities ∧
    (EntityQuerySet.is_sub_to_any ⟨db, S, pf⟩ [y]).entities =
      S.filter (fun e =>
        db.relationships.any (fun r => r.sub_entity == e.id && r.super_entity == y.id)) := by
  refine ⟨?_, ?_, ?_, ?_, ?_⟩
  · rcases supers with _ | ⟨s0, rest⟩ <;> rfl
  · rcases supers with _ | ⟨s0, _ | ⟨s1, rest⟩⟩ <;> rfl
  · rcases kinds with _ | ⟨k0, _ | ⟨k1, rest⟩⟩
    · rfl
    · show List.filter (fun e =>
          (subToAnyKindPks1 (setActiveFlag db pk b) k0).contains e.id) S = _
      rw [subToAnyKindPks1_setActiveFlag]
      rfl
    · show List.filter (fun e =>
          (subToAnyKindPksN (setActiveFlag db pk b) (k0 :: k1 :: rest)).contains e.id) S = _
      rw [subToAnyKindPksN_setActiveFlag]
      rfl
  · rcases kinds with _ | ⟨k0, _ | ⟨k1, rest⟩⟩
    · rfl
    · show List.filter (fun e =>
          (subToAllKindsFast (setActiveFlag db pk b) k0).contains e.id) S = _
      rw [subToAllKindsFast_setActiveFlag]
      rfl
    · show List.filter (fun e =>
          (subToAllKindsGeneral (setActiveFlag db pk b) (k0 :: k1 :: rest)).contains e.id) S = _
      rw [subToAllKindsGeneral_setActiveFlag]
      rfl
  · show List.filter (fun e => (subToAnyPks db [y]).contains e.id) S = _
    exact List.filter_congr (fun e _ => subToAnyContainsAux db.relationships y.id e.id)

/-- Active sub entity for the C9 witness. -/
def exX9 : Entity := ⟨1, "", 401, 9, 1, none, true⟩

/-- INACTIVE super entity for the C9 witness. -/
def exY9 : Entity := ⟨2, "", 402, 9, 1, none, false⟩

/-- Store for the C9 witness: one edge from the active sub to the inactive super. -/
def exDB9 : DB := ⟨[exX9, exY9], [⟨1, 2⟩]⟩

/-- Witness for C9 at the concrete store `exDB9` with the inactive super `exY9`. -/
theorem c9_super_activation_ignored_witness :
    exY9.is_active = false ∧
    ((EntityQuerySet.is_sub_to_any ⟨setActiveFlag exDB9 2 true, [exX9], []⟩ [exY9]).entities =
        (EntityQuerySet.is_sub_to_any ⟨exDB9, [exX9], []⟩ [exY9]).entities ∧
      (EntityQuerySet.is_sub_to_all ⟨setActiveFlag exDB9 2 true, [exX9], []⟩ [exY9]).entities =
        (EntityQuerySet.is_sub_to_all ⟨exDB9, [exX9], []⟩ [exY9]).entities ∧
      (EntityQuerySet.is_sub_to_any_kind
          ⟨setActiveFlag exDB9 2 true, [exX9], []⟩ [exK1]).entities =
        (EntityQuerySet.is_sub_to_any_kind ⟨exDB9, [exX9], []⟩ [exK1]).entities ∧
      (EntityQuerySet.is_sub_to_all_kinds
          ⟨setActiveFlag exDB9 2 true, [exX9], []⟩ [exK1]).entities =
        (EntityQuerySet.is_sub_to_all_kinds ⟨exDB9, [exX9], []⟩ [exK1]).entities ∧
      (EntityQuerySet.is_sub_to_any ⟨exDB9, [exX9], []⟩ [exY9]).entities =
        [exX9].filter (fun e =>
          exDB9.relationships.any
            (fun r => r.sub_entity == e.id && r.super_entity == exY9.id))) :=
  ⟨rfl, c9_super_activation_ignored exDB9 [exX9] [] 2 true [exY9] [exK1] exY9 rfl⟩

/-! ### C10: delete_for_obj is a scoped physical delete -/

/-- C10: `delete_for_obj` always deletes physically (it passes `force=True`
and has no soft-delete path), and removes exactly the wrappers visible
through the manager it is called on.  Called through the active-scoped
default manager, an inactive entity wrapping the reference survives in the
"all" view while every ACTIVE wrapper is removed; called through the
all-objects manager, no wrapper of the reference survives at all. -/
theorem c10_delete_for_obj_scoped (db : DB) (obj_type obj_id : Nat) (e : Entity)
    (he : e ∈ db.entities) (hwrap : e.entity_type = obj_type ∧ e.entity_id = obj_id)
    (hinact : e.is_active = false)
    (hnd : (db.entities.map (fun x => x.id)).Nodup) :
    e ∈ (AllEntityManager.get_queryset
      (AllEntityManager.delete_for_obj ActiveEntityManager.get_queryset
        db obj_type obj_id)).entities ∧
    (∀ x ∈ (AllEntityManager.delete_for_obj ActiveEntityManager.get_queryset
        db obj_type obj_id).entities,
      ¬(x.entity_type = obj_type ∧ x.entity_id = obj_id ∧ x.is_active = true)) ∧
    (∀ x ∈ (AllEntityManager.delete_for_obj AllEntityManager.get_queryset
        db obj_type obj_id).entities,
      ¬(x.entity_type = obj_type ∧ x.entity_id = obj_id)) := by
  refine ⟨?_, ?_, ?_⟩
  · apply List.mem_filter.mpr
    refine ⟨he, ?_⟩
    simp only [Bool.not_eq_true', List.contains, ← Bool.not_eq_true, List.elem_iff]
    intro hmem
    obtain ⟨tgt, htgt, htgtid⟩ := List.mem_map.mp hmem
    have htgt' := List.mem_filter.mp htgt
    have htgtact := List.mem_filter.mp htgt'.1
    have : tgt = e := List.inj_on_of_nodup_map hnd htgtact.1 he htgtid
    rw [this] at htgtact
    rw [hinact] at htgtact
    exact Bool.false_ne_true htgtact.2
  · intro x hx hcontra
    have hx' := List.mem_filter.mp hx
    have hxmem : x ∈ List.filter (fun e => e.is_active) db.entities :=
      List.mem_filter.mpr ⟨hx'.1, hcontra.2.2⟩
    have hxtgt : x ∈ List.filter
        (fun e => e.entity_type == obj_type && e.entity_id == obj_id)
        (List.filter (fun e => e.is_active) db.entities) := by
      apply List.mem_filter.mpr
      refine ⟨hxmem, ?_⟩
      simp [hcontra.1, hcontra.2.1]
    have hxid : x.id ∈ (List.filter
        (fun e => e.entity_type == obj_type && e.entity_id == obj_id)
        (List.filter (fun e => e.is_active) db.entities)).map (fun e => e.id) :=
      List.mem_map.mpr ⟨x, hxtgt, rfl⟩
    have := hx'.2
    simp only [Bool.not_eq_true', List.contains, ← Bool.not_eq_true, List.elem_iff] at this
    exact this hxid
  · intro x hx hcontra
    have hx' := List.mem_filter.mp hx
    have hxtgt : x ∈ List.filter
        (fun e => e.entity_type == obj_type && e.entity_id == obj_id) db.entities := by
      apply List.mem_filter.mpr
      refine ⟨hx'.1, ?_⟩
      simp [hcontra.1, hcontra.2]
    have hxid : x.id ∈ (List.filter
        (fun e => e.entity_type == obj_type && e.entity_id == obj_id)
        db.entities).map (fun e => e.id) :=
      List.mem_map.mpr ⟨x, hxtgt, rfl⟩
    have := hx'.2
    simp only [Bool.not_eq_true', List.contains, ← Bool.not_eq_true, List.elem_iff] at this
    exact this hxid

/-- Active wrapper of reference (type 5, id 7) for the C10 witness. -/
def exE10a : Entity := ⟨1, "", 7, 5, 1, none, true⟩

/-- Inactive wrapper of the same reference for the C10 witness. -/
def exE10b : Entity := ⟨2, "", 7, 5, 2, none, false⟩

/-- Store for the C10 witness: one active and one inactive wrapper of (5, 7). -/
def exDB10 : DB := ⟨[exE10a, exE10b], []⟩

/-- Witness for C10 at the concrete store `exDB10` and its inactive wrapper. -/
theorem c10_delete_for_obj_scoped_witness :
    (exE10b ∈ exDB10.entities ∧ (exE10b.entity_type = 5 ∧ exE10b.entity_id = 7) ∧
      exE10b.is_active = false ∧ (exDB10.entities.map (fun x => x.id)).Nodup) ∧
    (exE10b ∈ (AllEntityManager.get_queryset
        (AllEntityManager.delete_for_obj ActiveEntityManager.get_queryset
          exDB10 5 7)).entities ∧
      (∀ x ∈ (AllEntityManager.delete_for_obj ActiveEntityManager.get_queryset
          exDB10 5 7).entities,
        ¬(x.entity_type = 5 ∧ x.entity_id = 7 ∧ x.is_active = true)) ∧
      (∀ x ∈ (AllEntityManager.delete_for_obj AllEntityManager.get_queryset
          exDB10 5 7).entities,
        ¬(x.entity_type = 5 ∧ x.entity_id = 7))) :=
  ⟨⟨by decide, by decide, by decide, by decide⟩,
    c10_delete_for_obj_scoped exDB10 5 7 exE10b (by decide) (by decide) (by decide)
      (by decide)⟩
